import Mathlib

/-!
Shallow embedding of the Ensemble module of a stochastic self-consistent
harmonic approximation code (Modules/Ensemble.py).  Pure numerical methods
of the Ensemble class are translated into Lean functions; the stateful
methods (load, update_weights) are translated into explicit state-passing
functions returning Except, where the error value carries the state
observed at the point the Python exception is raised.  Plain float
arithmetic of the source is embedded over ℚ (exact field arithmetic);
the parts of the source built from sqrt/tanh/sinh/cosh are embedded over
ℝ.  The theorems check the specification's claims about this code.
-/

open Finset

/-- Ensemble.get_effective_sample_size, translated from
`self.N * np.sum(self.rho) / float(np.sum(self.rho**2))`.
The weight vector rho has length N; entries are read at indices 0..N-1. -/
def get_effective_sample_size (N : ℕ) (rho : ℕ → ℚ) : ℚ :=
  N * (∑ i ∈ range N, rho i) / (∑ i ∈ range N, (rho i) ^ 2)

/-- Ensemble.get_average_energy, translated from
`np.sum(self.rho * (self.energies - self.sscha_energies)) / self.N` in the
subtract_sscha branch and `np.sum(self.rho * self.energies) / self.N`
otherwise. -/
def get_average_energy (N : ℕ) (rho energies sscha_energies : ℕ → ℚ)
    (subtract_sscha : Bool) : ℚ :=
  if subtract_sscha then
    (∑ i ∈ range N, rho i * (energies i - sscha_energies i)) / N
  else
    (∑ i ∈ range N, rho i * energies i) / N

/-- Claim C3 counterexample: the uniform weight vector (1/2, 1/2) is
non-negative and not all zero, and all its entries are equal, yet the
Kong-Liu value computed by the code is 4, strictly above N = 2: the claimed
bound effective_sample_size ≤ N (and the claimed equality-at-N exactly for
equal weights) fails. -/
theorem effective_sample_size_exceeds_N_counterexample :
    get_effective_sample_size 2 (fun _ => (1 : ℚ) / 2) = 4 ∧
      ¬ get_effective_sample_size 2 (fun _ => (1 : ℚ) / 2) ≤ 2 := by
  have h : get_effective_sample_size 2 (fun _ => (1 : ℚ) / 2) = 4 := by
    unfold get_effective_sample_size
    rw [Finset.sum_range_succ, Finset.sum_range_succ,
        Finset.sum_range_succ, Finset.sum_range_succ]
    norm_num
  exact ⟨h, by rw [h]; norm_num⟩

/-- Claim C3 (amended): for a weight vector with non-negative entries, not
all zero, the value N * (Σ rho_i) / (Σ rho_i^2) computed by
get_effective_sample_size is strictly positive, and it equals N precisely
when Σ rho_i = Σ rho_i^2 (as happens in the identity case rho_i = 1); the
upper bound by N and the equal-weights characterisation do not hold in
general. -/
theorem effective_sample_size_pos_and_eq_N_iff (N : ℕ) (rho : ℕ → ℚ)
    (hN : 1 ≤ N) (hnn : ∀ i ∈ range N, 0 ≤ rho i)
    (hnz : ∃ i ∈ range N, rho i ≠ 0) :
    0 < get_effective_sample_size N rho ∧
      (get_effective_sample_size N rho = N ↔
        ∑ i ∈ range N, rho i = ∑ i ∈ range N, (rho i) ^ 2) := by
  obtain ⟨j, hj, hjne⟩ := hnz
  have hjpos : 0 < rho j := lt_of_le_of_ne (hnn j hj) (Ne.symm hjne)
  have hA : 0 < ∑ i ∈ range N, rho i :=
    Finset.sum_pos' hnn ⟨j, hj, hjpos⟩
  have hB : 0 < ∑ i ∈ range N, (rho i) ^ 2 :=
    Finset.sum_pos' (fun i _ => sq_nonneg _) ⟨j, hj, by positivity⟩
  have hNpos : (0 : ℚ) < N := by exact_mod_cast hN
  constructor
  · unfold get_effective_sample_size
    exact div_pos (mul_pos hNpos hA) hB
  · unfold get_effective_sample_size
    rw [div_eq_iff hB.ne']
    constructor
    · intro h
      exact mul_left_cancel₀ hNpos.ne' h
    · intro h
      rw [h]

/-- Claim C3 amended-theorem witness: concrete instantiation at N = 1,
rho = (2): the effective sample size 1 * 2 / 4 = 1/2 is positive, and it
differs from N because Σ rho = 2 differs from Σ rho^2 = 4. -/
theorem effective_sample_size_pos_and_eq_N_iff_witness :
    0 < get_effective_sample_size 1 (fun _ => (2 : ℚ)) ∧
      (get_effective_sample_size 1 (fun _ => (2 : ℚ)) = ((1 : ℕ) : ℚ) ↔
        ∑ i ∈ range 1, (fun _ => (2 : ℚ)) i
          = ∑ i ∈ range 1, ((fun _ => (2 : ℚ)) i) ^ 2) :=
  effective_sample_size_pos_and_eq_N_iff 1 (fun _ => (2 : ℚ)) (by norm_num)
    (fun i _ => by norm_num) ⟨0, by norm_num, by norm_num⟩

/-- Claim C7: average-energy linearity.  For every ensemble size N and every
weight, energy and model-energy vector, the subtract_sscha average plus
(Σ rho_i * sscha_energy_i)/N equals the plain average. -/
theorem average_energy_linearity (N : ℕ) (rho E sE : ℕ → ℚ) :
    get_average_energy N rho E sE true + (∑ i ∈ range N, rho i * sE i) / N
      = get_average_energy N rho E sE false := by
  simp only [get_average_energy, if_true, if_false]
  rw [div_add_div_same, ← Finset.sum_add_distrib]
  congr 1
  refine Finset.sum_congr rfl fun i _ => by ring

/-- Conversion constant from Kelvin to Rydberg, exactly the literal of the
source (K_to_Ry = 6.336857346553283e-06). -/
noncomputable def K_to_Ry : ℝ := 6.336857346553283e-06

/-- Occupation amplitude a_mu computed by
get_free_energy_gradient_respect_to_dyn, translated branch for branch from
`if T == 0: a_mu = 1 / np.sqrt(2*w)` and, with beta = 1/(K_to_Ry*T)
inlined, `a_mu = 1 / np.sqrt(np.tanh(beta*w/2) *2* w)`. -/
noncomputable def a_mu (T w : ℝ) : ℝ :=
  if T = 0 then 1 / Real.sqrt (2 * w)
  else 1 / Real.sqrt (Real.tanh (1 / (K_to_Ry * T) * w / 2) * 2 * w)

/-- Amplitude derivative da_dw of the same function, translated from
`da_dw = -1 / np.sqrt(8 * w**3)` at T == 0 and otherwise, with
beta = 1/(K_to_Ry*T) inlined, from
`- (w*beta + np.sinh(w*beta)) / (2*np.sqrt(2) * w**2 * (np.cosh(beta*w)-1)
* np.sqrt(np.cosh(beta*w/2) / (np.sinh(beta*w/2) * w)))`. -/
noncomputable def da_dw (T w : ℝ) : ℝ :=
  if T = 0 then -1 / Real.sqrt (8 * w ^ 3)
  else
    -(w * (1 / (K_to_Ry * T)) + Real.sinh (w * (1 / (K_to_Ry * T)))) /
      (2 * Real.sqrt 2 * w ^ 2 * (Real.cosh (1 / (K_to_Ry * T) * w) - 1) *
        Real.sqrt (Real.cosh (1 / (K_to_Ry * T) * w / 2) /
          (Real.sinh (1 / (K_to_Ry * T) * w / 2) * w)))

/-- Hyperbolic cotangent, used only to render the claimed finite-temperature
formula of the specification (this Mathlib snapshot has no Real.coth). -/
noncomputable def coth (x : ℝ) : ℝ := Real.cosh x / Real.sinh x

/-- The finite-temperature amplitude exactly as the specification words it:
1 / sqrt(2 w coth(w / (2 k_B T))). -/
noncomputable def a_mu_spec_coth (T w : ℝ) : ℝ :=
  1 / Real.sqrt (2 * w * coth (w / (2 * (K_to_Ry * T))))

lemma tanh_lt_one_aux (x : ℝ) : Real.tanh x < 1 := by
  rw [Real.tanh_eq_sinh_div_cosh]
  exact (div_lt_one (Real.cosh_pos x)).mpr (Real.sinh_lt_cosh x)

lemma tanh_pos_of_pos {x : ℝ} (hx : 0 < x) : 0 < Real.tanh x := by
  rw [Real.tanh_eq_sinh_div_cosh]
  exact div_pos (Real.sinh_pos_iff.mpr hx) (Real.cosh_pos x)

lemma one_lt_coth {x : ℝ} (hx : 0 < x) : 1 < coth x := by
  unfold coth
  exact (one_lt_div (Real.sinh_pos_iff.mpr hx)).mpr (Real.sinh_lt_cosh x)

lemma K_to_Ry_pos : (0 : ℝ) < K_to_Ry := by norm_num [K_to_Ry]

/-- For every strictly positive temperature and frequency, the amplitude the
code computes, 1/sqrt(tanh(beta w/2) 2 w), is strictly larger than the
specification's coth form 1/sqrt(2 w coth(beta w/2)): the two formulas never
agree there. -/
lemma a_mu_spec_coth_lt_a_mu {T w : ℝ} (hT : 0 < T) (hw : 0 < w) :
    a_mu_spec_coth T w < a_mu T w := by
  have hKT : (0 : ℝ) < K_to_Ry * T := mul_pos K_to_Ry_pos hT
  have harg : 1 / (K_to_Ry * T) * w / 2 = w / (2 * (K_to_Ry * T)) := by
    rw [one_div_mul_eq_div, div_div, mul_comm (K_to_Ry * T) 2]
  unfold a_mu a_mu_spec_coth
  rw [if_neg hT.ne', harg]
  have hxpos : 0 < w / (2 * (K_to_Ry * T)) := by positivity
  have htp := tanh_pos_of_pos hxpos
  have hL : 0 < Real.tanh (w / (2 * (K_to_Ry * T))) * 2 * w := by positivity
  have hlt : Real.tanh (w / (2 * (K_to_Ry * T))) * 2 * w
      < 2 * w * coth (w / (2 * (K_to_Ry * T))) := by
    have h1 := tanh_lt_one_aux (w / (2 * (K_to_Ry * T)))
    have h2 := one_lt_coth hxpos
    nlinarith
  have hs := Real.sqrt_lt_sqrt hL.le hlt
  exact one_div_lt_one_div_of_lt (Real.sqrt_pos.mpr hL) hs

/-- Claim C4 counterexample: at temperature T = 1/K_to_Ry (so beta = 1) and
frequency w = 1, the amplitude computed by the code differs from the
specification's formula 1/sqrt(2 w coth(w/(2 k_B T))): the source uses tanh
where the claim says coth. -/
theorem a_mu_coth_formula_counterexample :
    a_mu (1 / K_to_Ry) 1 ≠ a_mu_spec_coth (1 / K_to_Ry) 1 :=
  (a_mu_spec_coth_lt_a_mu (one_div_pos.mpr K_to_Ry_pos) one_pos).ne'

/-- Claim C4 (amended): for every retained mode with frequency w > 0, the
amplitude factor is 1/sqrt(2 w) with derivative -1/sqrt(8 w^3) at
temperature 0, and at temperature T > 0 it equals
1/sqrt(2 w tanh(w/(2 k_B T))) (the spec's coth must be tanh; equivalently
sqrt(coth(w/(2 k_B T))/(2 w))). -/
theorem a_mu_da_dw_branches (w T : ℝ) (hw : 0 < w) :
    (T = 0 → a_mu T w = 1 / Real.sqrt (2 * w) ∧
      da_dw T w = -1 / Real.sqrt (8 * w ^ 3)) ∧
    (0 < T → a_mu T w
      = 1 / Real.sqrt (2 * w * Real.tanh (w / (2 * (K_to_Ry * T))))) := by
  constructor
  · intro hT
    unfold a_mu da_dw
    rw [if_pos hT, if_pos hT]
    exact ⟨rfl, rfl⟩
  · intro hT
    have hKT : (0 : ℝ) < K_to_Ry * T := mul_pos K_to_Ry_pos hT
    have harg : 1 / (K_to_Ry * T) * w / 2 = w / (2 * (K_to_Ry * T)) := by
      rw [one_div_mul_eq_div, div_div, mul_comm (K_to_Ry * T) 2]
    unfold a_mu
    rw [if_neg hT.ne', harg,
      show Real.tanh (w / (2 * (K_to_Ry * T))) * 2 * w
          = 2 * w * Real.tanh (w / (2 * (K_to_Ry * T))) from by ring]

/-- Claim C4 amended-theorem witness: instantiation at w = 1, T = 0
evaluates both zero-temperature formulas. -/
theorem a_mu_da_dw_branches_witness :
    a_mu 0 1 = 1 / Real.sqrt (2 * 1) ∧
      da_dw 0 1 = -1 / Real.sqrt (8 * 1 ^ 3) :=
  (a_mu_da_dw_branches 1 0 one_pos).1 rfl

/-- Input data of get_free_energy_gradient_respect_to_dyn.  The external
collaborators enter as plain data: w and pols are the output of
self.current_dyn.DyagDinQ(0) before any slicing (pols r i = Cartesian
component r of mode i), atomMass i is structure.masses[structure.atom[i]],
T the current temperature, rho the weights, u_disp nu the flattened
displacement vector of structure nu, and forces / sscha_forces the
flattened per-configuration force arrays. -/
structure GradInput where
  Natoms : ℕ
  atomMass : ℕ → ℝ
  T : ℝ
  w : List ℝ
  pols : ℕ → ℕ → ℝ
  N : ℕ
  rho : ℕ → ℝ
  u_disp : ℕ → ℕ → ℝ
  forces : ℕ → ℕ → ℝ
  sscha_forces : ℕ → ℕ → ℝ

/-- The mass vector _m_ over the 3*Natoms Cartesian degrees of freedom:
entries 3i .. 3i+2 all hold the mass of atom i
(`_m_[3*i : 3*i+3] = masses[atom[i]]`). -/
noncomputable def massVec (atomMass : ℕ → ℝ) (j : ℕ) : ℝ := atomMass (j / 3)

/-- _m_sqrtinv = 1 / np.sqrt(_m_). -/
noncomputable def m_sqrtinv (atomMass : ℕ → ℝ) (j : ℕ) : ℝ :=
  1 / Real.sqrt (massVec atomMass j)

/-- Entry read of the retained frequency vector (ws is w after w = w[3:]). -/
noncomputable def wAt (ws : List ℝ) (i : ℕ) : ℝ := ws.getD i 0

/-- one_over_omegamunu: `1/(_w_**2 - _w_.transpose()**2)` followed by the
mask `*= 1 - np.eye(n_modes)`; entry (j, i) is 1/(w_i^2 - w_j^2) off the
diagonal, masked on it. -/
noncomputable def one_over_omegamunu (ws : List ℝ) (j i : ℕ) : ℝ :=
  1 / ((wAt ws i) ^ 2 - (wAt ws j) ^ 2) * (if j = i then 0 else 1)

/-- d_lna_d_dyn from `np.einsum("i, ai, bi, ci, a, b, c->abic",
da_dw/(2*w*a_mu), pols, pols, pols, _m_sqrtinv, _m_sqrtinv, _m_sqrtinv)`;
output indices (a, b, i, c) with i the mode index, no contraction. -/
noncomputable def d_lna_d_dyn (atomMass : ℕ → ℝ) (T : ℝ) (ws : List ℝ)
    (ps : ℕ → ℕ → ℝ) (a b i c : ℕ) : ℝ :=
  da_dw T (wAt ws i) / (2 * wAt ws i * a_mu T (wAt ws i)) *
    ps a i * ps b i * ps c i *
    m_sqrtinv atomMass a * m_sqrtinv atomMass b * m_sqrtinv atomMass c

/-- d_pol_d_dyn from `np.einsum("ai,bj,ci,ji,a,b,c->abjc", pols, pols,
pols, one_over_omegamunu, _m_sqrtinv, _m_sqrtinv, _m_sqrtinv)`; the inner
mode index i is contracted over the n_modes retained modes. -/
noncomputable def d_pol_d_dyn (atomMass : ℕ → ℝ) (ws : List ℝ)
    (ps : ℕ → ℕ → ℝ) (a b j c : ℕ) : ℝ :=
  ∑ i ∈ range ws.length,
    ps a i * ps b j * ps c i * one_over_omegamunu ws j i *
      m_sqrtinv atomMass a * m_sqrtinv atomMass b * m_sqrtinv atomMass c

/-- pre_sum = d_lna_d_dyn + d_pol_d_dyn. -/
noncomputable def pre_sum (atomMass : ℕ → ℝ) (T : ℝ) (ws : List ℝ)
    (ps : ℕ → ℕ → ℝ) (a b i c : ℕ) : ℝ :=
  d_lna_d_dyn atomMass T ws ps a b i c + d_pol_d_dyn atomMass ws ps a b i c

/-- Normal-mode coordinate q of one configuration, from
`np.einsum("i, ij, i", np.sqrt(_m_), pols, u_disp)`: the free index j is
the mode, the contracted index runs over the 3*Natoms degrees of freedom. -/
noncomputable def q_mode (Natoms : ℕ) (atomMass : ℕ → ℝ) (ps : ℕ → ℕ → ℝ)
    (u : ℕ → ℝ) (j : ℕ) : ℝ :=
  ∑ d ∈ range (3 * Natoms), Real.sqrt (massVec atomMass d) * ps d j * u d

/-- gamma of one configuration, from `np.einsum("abcd, d", pre_sum,
delta_f)` with delta_f = (forces[i] - sscha_forces[i]).reshape(3*Natoms);
here c is the mode index of pre_sum and d the contracted Cartesian one. -/
noncomputable def gamma_tensor (Natoms : ℕ) (atomMass : ℕ → ℝ) (T : ℝ)
    (ws : List ℝ) (ps : ℕ → ℕ → ℝ) (delta_f : ℕ → ℝ) (a b c : ℕ) : ℝ :=
  ∑ d ∈ range (3 * Natoms), pre_sum atomMass T ws ps a b c d * delta_f d

/-- Core of get_free_energy_gradient_respect_to_dyn after the slicing
w = w[3:], pols = pols[:, 3:]: the (a, b) entry of d_F_d_dyn, i.e. the
per-configuration accumulation
`d_F_d_dyn += - np.einsum("abc, c", gamma, q) * self.rho[i]` followed by
the normalization `d_F_d_dyn /= np.sum(self.rho)`. -/
noncomputable def gradCore (Natoms : ℕ) (atomMass : ℕ → ℝ) (T : ℝ)
    (ws : List ℝ) (ps : ℕ → ℕ → ℝ) (N : ℕ) (rho : ℕ → ℝ)
    (u f sf : ℕ → ℕ → ℝ) (a b : ℕ) : ℝ :=
  (∑ nu ∈ range N,
      -(∑ c ∈ range ws.length,
          gamma_tensor Natoms atomMass T ws ps
              (fun d => f nu d - sf nu d) a b c *
            q_mode Natoms atomMass ps (u nu) c) * rho nu) /
    (∑ nu ∈ range N, rho nu)

/-- Ensemble.get_free_energy_gradient_respect_to_dyn: the code first
discards the three translational modes (`w = w[3:]`, `pols = pols[:, 3:]`)
and then runs the tensor algebra on the remaining modes only. -/
noncomputable def get_free_energy_gradient_respect_to_dyn
    (g : GradInput) (a b : ℕ) : ℝ :=
  gradCore g.Natoms g.atomMass g.T (g.w.drop 3) (fun r i => g.pols r (i + 3))
    g.N g.rho g.u_disp g.forces g.sscha_forces a b

/-- n_modes = len(w) after the slicing w = w[3:]. -/
def n_modes (g : GradInput) : ℕ := (g.w.drop 3).length

/-- Claim C5: the gradient computation discards exactly the first three
modes returned by diagonalization: its output is unchanged under any
modification of the first three frequencies and polarization columns, so
the discarded modes contribute nothing, and the retained mode count is
3*Natoms - 3 whenever diagonalization returns 3*Natoms modes. -/
theorem gradient_mode_exclusion (g : GradInput) (w' : List ℝ)
    (pols' : ℕ → ℕ → ℝ) (hw : g.w.drop 3 = w'.drop 3)
    (hp : ∀ r i, g.pols r (i + 3) = pols' r (i + 3))
    (hlen : g.w.length = 3 * g.Natoms) :
    (∀ a b, get_free_energy_gradient_respect_to_dyn
        { g with w := w', pols := pols' } a b
      = get_free_energy_gradient_respect_to_dyn g a b) ∧
      n_modes g = 3 * g.Natoms - 3 := by
  constructor
  · intro a b
    have hpe : (fun r i => pols' r (i + 3)) = (fun r i => g.pols r (i + 3)) :=
      funext fun r => funext fun i => (hp r i).symm
    show gradCore g.Natoms g.atomMass g.T (w'.drop 3)
        (fun r i => pols' r (i + 3)) g.N g.rho g.u_disp g.forces
        g.sscha_forces a b
      = gradCore g.Natoms g.atomMass g.T (g.w.drop 3)
        (fun r i => g.pols r (i + 3)) g.N g.rho g.u_disp g.forces
        g.sscha_forces a b
    rw [← hw, hpe]
  · unfold n_modes
    rw [List.length_drop, hlen]

/-- Concrete gradient input used to instantiate the mode-exclusion theorem:
one atom, so the three returned modes are all discarded. -/
noncomputable def gEx5 : GradInput :=
  ⟨1, fun _ => 1, 0, [0, 0, 0], fun _ _ => 0, 1, fun _ => 1,
    fun _ _ => 0, fun _ _ => 0, fun _ _ => 0⟩

/-- Polarization matrix differing from gEx5's in the first three columns
only. -/
noncomputable def polsEx5 : ℕ → ℕ → ℝ :=
  fun r i => if i < 3 then (r : ℝ) + 1 else 0

/-- Claim C5 witness: concrete instantiation replacing the three discarded
frequencies by (5, 7, 9) and the three discarded polarization columns by
nonzero vectors leaves the gradient entry (0,0) unchanged, and the
retained mode count is 3*1 - 3 = 0. -/
theorem gradient_mode_exclusion_witness :
    get_free_energy_gradient_respect_to_dyn
        { gEx5 with w := [5, 7, 9], pols := polsEx5 } 0 0
      = get_free_energy_gradient_respect_to_dyn gEx5 0 0 ∧
      n_modes gEx5 = 3 * gEx5.Natoms - 3 := by
  have h := gradient_mode_exclusion gEx5 [5, 7, 9] polsEx5 rfl
    (fun r i => by
      have hi : ¬ i + 3 < 3 := by omega
      simp [gEx5, polsEx5, hi])
    rfl
  exact ⟨h.1 0 0, h.2⟩

/-- Uniformly rescaling the weight vector cancels between the accumulated
numerator and the Σ rho normalization of gradCore. -/
lemma gradCore_rho_scale (Natoms : ℕ) (atomMass : ℕ → ℝ) (T : ℝ)
    (ws : List ℝ) (ps : ℕ → ℕ → ℝ) (N : ℕ) (rho : ℕ → ℝ)
    (u f sf : ℕ → ℕ → ℝ) (l : ℝ) (hl : l ≠ 0) (a b : ℕ) :
    gradCore Natoms atomMass T ws ps N (fun nu => l * rho nu) u f sf a b
      = gradCore Natoms atomMass T ws ps N rho u f sf a b := by
  unfold gradCore
  have hnum : (∑ nu ∈ range N,
      -(∑ c ∈ range ws.length,
          gamma_tensor Natoms atomMass T ws ps
              (fun d => f nu d - sf nu d) a b c *
            q_mode Natoms atomMass ps (u nu) c) * (l * rho nu))
      = l * ∑ nu ∈ range N,
          -(∑ c ∈ range ws.length,
              gamma_tensor Natoms atomMass T ws ps
                  (fun d => f nu d - sf nu d) a b c *
                q_mode Natoms atomMass ps (u nu) c) * rho nu := by
    rw [Finset.mul_sum]
    exact Finset.sum_congr rfl fun nu _ => by ring
  rw [hnum, ← Finset.mul_sum]
  exact mul_div_mul_left _ _ hl

/-- Claim C6: gradient scale invariance.  For every gradient input with
positive total weight and every positive scalar l, replacing each weight
rho_nu by l * rho_nu leaves every entry of the returned gradient matrix
unchanged, because the accumulated contributions are normalized by
Σ weights. -/
theorem gradient_scale_invariance (g : GradInput) (l : ℝ) (hl : 0 < l)
    (hsum : 0 < ∑ nu ∈ range g.N, g.rho nu) :
    ∀ a b, get_free_energy_gradient_respect_to_dyn
        { g with rho := fun nu => l * g.rho nu } a b
      = get_free_energy_gradient_respect_to_dyn g a b := fun a b =>
  gradCore_rho_scale g.Natoms g.atomMass g.T (g.w.drop 3)
    (fun r i => g.pols r (i + 3)) g.N g.rho g.u_disp g.forces
    g.sscha_forces l hl.ne' a b

/-- Concrete gradient input used to instantiate the scale-invariance
theorem. -/
noncomputable def gEx6 : GradInput :=
  ⟨1, fun _ => 1, 0, [0, 0, 0], fun _ _ => 0, 1, fun _ => 1,
    fun _ _ => 0, fun _ _ => 0, fun _ _ => 0⟩

/-- Claim C6 witness: doubling the single unit weight of a concrete
one-configuration input leaves the gradient entry (0,0) unchanged. -/
theorem gradient_scale_invariance_witness :
    get_free_energy_gradient_respect_to_dyn
        { gEx6 with rho := fun nu => 2 * gEx6.rho nu } 0 0
      = get_free_energy_gradient_respect_to_dyn gEx6 0 0 :=
  gradient_scale_invariance gEx6 2 (by norm_num)
    (by simp [gEx6]) 0 0

/-- Mutable state of an Ensemble as touched by update_weights.  The
per-configuration arrays rho, sscha_energies and sscha_forces, which the
intended load path allocates with one entry per configuration, are modeled
as total functions updated in place (an in-range numpy element assignment);
q is the per-configuration normal-mode cache, which __init__ sets to the
empty list and which no method ever populates; current_dyn is an
identifier of the current dynamical matrix. -/
structure EnsembleState where
  N : ℕ
  current_T : ℚ
  current_dyn : ℕ
  rho : ℕ → ℚ
  sscha_energies : ℕ → ℚ
  sscha_forces : ℕ → ℕ → ℕ → ℚ
  q : List ℚ

/-- One iteration of the update_weights loop (source lines 158-162):
assign rho[i] from GetRatioProbability, assign sscha_energies[i] and
sscha_forces[i, :, :] from get_energy_forces, then evaluate the bare
expression `self.q[i]`, which raises IndexError as soon as i is out of
range of the q list; the error value carries the state at the raise. -/
def update_weights_step (ratioOf : ℕ → ℚ) (efE : ℕ → ℚ)
    (efF : ℕ → ℕ → ℕ → ℚ) (i : ℕ) (s : EnsembleState) :
    Except EnsembleState EnsembleState :=
  let s' : EnsembleState :=
    { s with rho := Function.update s.rho i (ratioOf i),
             sscha_energies := Function.update s.sscha_energies i (efE i),
             sscha_forces := Function.update s.sscha_forces i (efF i) }
  if i < s'.q.length then Except.ok s' else Except.error s'

/-- The `for i in range(self.N)` loop of update_weights. -/
def update_weights_loop (ratioOf : ℕ → ℚ) (efE : ℕ → ℚ)
    (efF : ℕ → ℕ → ℕ → ℚ) :
    List ℕ → EnsembleState → Except EnsembleState EnsembleState
  | [], s => Except.ok s
  | i :: rest, s =>
    match update_weights_step ratioOf efE efF i s with
    | Except.ok s' => update_weights_loop ratioOf efE efF rest s'
    | Except.error s' => Except.error s'

/-- Ensemble.update_weights: first assigns self.current_T = newT, then runs
the loop over range(self.N), with the adapter entering as the functions
ratioOf i = new_dynamical_matrix.GetRatioProbability(structures[i], newT,
T0, dyn_0) and (efE i, efF i) =
new_dynamical_matrix.get_energy_forces(structures[i]); only after the
whole loop does it assign self.current_dyn = new_dynamical_matrix. -/
def update_weights (newT : ℚ) (new_dyn : ℕ) (ratioOf : ℕ → ℚ)
    (efE : ℕ → ℚ) (efF : ℕ → ℕ → ℕ → ℚ) (s : EnsembleState) :
    Except EnsembleState EnsembleState :=
  let s1 : EnsembleState := { s with current_T := newT }
  match update_weights_loop ratioOf efE efF (List.range s1.N) s1 with
  | Except.ok s' => Except.ok { s' with current_dyn := new_dyn }
  | Except.error s' => Except.error s'

/-- In any state whose q cache is the empty list (as __init__ leaves it),
update_weights with N ≥ 1 raises on the very first loop iteration, after
current_T and the first configuration's weight and model predictions have
already been overwritten. -/
lemma update_weights_first_step_error (s : EnsembleState) (newT : ℚ)
    (new_dyn : ℕ) (ratioOf : ℕ → ℚ) (efE : ℕ → ℚ) (efF : ℕ → ℕ → ℕ → ℚ)
    (hN : 1 ≤ s.N) (hq : s.q = []) :
    update_weights newT new_dyn ratioOf efE efF s = Except.error
      { s with current_T := newT,
               rho := Function.update s.rho 0 (ratioOf 0),
               sscha_energies := Function.update s.sscha_energies 0 (efE 0),
               sscha_forces := Function.update s.sscha_forces 0 (efF 0) } := by
  obtain ⟨m, hm⟩ : ∃ m, s.N = m + 1 := ⟨s.N - 1, by omega⟩
  have hrange : List.range s.N = 0 :: List.map Nat.succ (List.range m) := by
    rw [hm, List.range_succ_eq_map]
  simp only [update_weights, hrange, update_weights_loop,
    update_weights_step, hq, List.length_nil, Nat.lt_irrefl, if_false]

/-- Claim C10: for every ensemble state with N ≥ 1 whose q cache is the
empty list set at construction, every update_weights call fails with the
index error raised by reading self.q[i] on the first iteration; at that
point current_T and the first configuration's weight and model-predicted
energy/forces have already been overwritten (and only those weights), so
the ensemble is left partially mutated, with q still never populated and
current_dyn untouched. -/
theorem update_weights_always_raises_partially_mutated (s : EnsembleState)
    (newT : ℚ) (new_dyn : ℕ) (ratioOf : ℕ → ℚ) (efE : ℕ → ℚ)
    (efF : ℕ → ℕ → ℕ → ℚ) (hN : 1 ≤ s.N) (hq : s.q = []) :
    ∃ s', update_weights newT new_dyn ratioOf efE efF s = Except.error s' ∧
      s'.current_T = newT ∧ s'.rho 0 = ratioOf 0 ∧
      s'.sscha_energies 0 = efE 0 ∧ s'.sscha_forces 0 = efF 0 ∧
      (∀ j, j ≠ 0 → s'.rho j = s.rho j) ∧ s'.q = [] ∧
      s'.current_dyn = s.current_dyn := by
  refine ⟨_, update_weights_first_step_error s newT new_dyn ratioOf efE efF
    hN hq, rfl, ?_, ?_, ?_, ?_, hq, rfl⟩
  · exact Function.update_same 0 (ratioOf 0) s.rho
  · exact Function.update_same 0 (efE 0) s.sscha_energies
  · exact Function.update_same 0 (efF 0) s.sscha_forces
  · intro j hj
    exact Function.update_noteq hj (ratioOf 0) s.rho

/-- Concrete one-configuration ensemble state used to instantiate the
update_weights theorems. -/
def sEx10 : EnsembleState :=
  ⟨1, 0, 0, fun _ => 1, fun _ => 0, fun _ _ _ => 0, []⟩

/-- Claim C10 witness: the concrete call on a one-configuration state fails
with the partially mutated error state. -/
theorem update_weights_always_raises_witness :
    ∃ s', update_weights 25 7 (fun _ => 2) (fun _ => 3) (fun _ _ _ => 4)
        sEx10 = Except.error s' ∧
      s'.current_T = 25 ∧ s'.rho 0 = 2 ∧
      s'.sscha_energies 0 = 3 ∧ s'.sscha_forces 0 = 4 ∧
      (∀ j, j ≠ 0 → s'.rho j = sEx10.rho j) ∧ s'.q = [] ∧
      s'.current_dyn = sEx10.current_dyn :=
  update_weights_always_raises_partially_mutated sEx10 25 7 (fun _ => 2)
    (fun _ => 3) (fun _ _ _ => 4) (by decide) rfl

/-- Concrete two-configuration ensemble state at temperature 100 with unit
weights, used to exhibit the non-atomicity of update_weights. -/
def sEx1 : EnsembleState :=
  ⟨2, 100, 3, fun _ => 1, fun _ => 0, fun _ _ _ => 0, []⟩

/-- Claim C1 failing-input theorem: reweighting this concrete ensemble
(adapter returning finite ratio 7 for every structure) fails, and in the
observable post-failure state both the temperature and the first weight
differ from their prior values: the prior state is not retained, so the
reweighting call is not atomic. -/
theorem update_weights_failure_leaves_mutated_state :
    ∃ s', update_weights 200 9 (fun _ => 7) (fun _ => 5) (fun _ _ _ => 6)
        sEx1 = Except.error s' ∧
      s'.current_T = 200 ∧ sEx1.current_T = 100 ∧
      s'.rho 0 = 7 ∧ sEx1.rho 0 = 1 := by
  refine ⟨_, update_weights_first_step_error sEx1 200 9 (fun _ => 7)
    (fun _ => 5) (fun _ _ _ => 6) (by decide) rfl, rfl, rfl, ?_, rfl⟩
  exact Function.update_same 0 7 sEx1.rho

/-- Concrete two-configuration ensemble state for the identity-reweighting
claim. -/
def sEx2 : EnsembleState :=
  ⟨2, 30, 4, fun _ => 1, fun _ => 0, fun _ _ _ => 0, []⟩

/-- Claim C2 failing-input theorem: reweighting with the identity adapter
(probability ratio 1 for every configuration, original temperature 30)
does not succeed: the call raises via the unpopulated q cache, so no state
with weight 1 everywhere is ever returned and the effective sample size is
never reached. -/
theorem identity_reweighting_raises :
    ∃ s', update_weights 30 4 (fun _ => 1) (fun _ => 0) (fun _ _ _ => 0)
        sEx2 = Except.error s' :=
  ⟨_, update_weights_first_step_error sEx2 30 4 (fun _ => 1) (fun _ => 0)
    (fun _ _ _ => 0) (by decide) rfl⟩

/-- Shape of one storage slot of the Ensemble: either a plain Python list
(of a given length) or a numpy ndarray of a given shape.  The numeric
contents are irrelevant to the allocation claims and are not tracked. -/
inductive PyStore where
  | pylist (len : ℕ)
  | ndarray (shape : List ℕ)
deriving DecidableEq

/-- Storage-shape state of the Ensemble fields that load touches. -/
structure LoadState where
  N : ℕ
  forces : PyStore
  stresses : PyStore
  sscha_energies : PyStore
  sscha_forces : PyStore
  energies : PyStore
  rho : PyStore
deriving DecidableEq

/-- Ensemble.__init__ shape state: N = 0 and every container the empty
Python list (self.forces = [], self.sscha_energies = [],
self.sscha_forces = [], self.rho = [], ...). -/
def initState : LoadState :=
  ⟨0, PyStore.pylist 0, PyStore.pylist 0, PyStore.pylist 0,
    PyStore.pylist 0, PyStore.pylist 0, PyStore.pylist 0⟩

/-- Whether a numpy-style tuple-indexed element assignment
`target[i, :, :] = value` succeeds: it does on an ndarray whose leading
dimension exceeds i; on a plain Python list it raises TypeError (list
indices must be integers or slices, not tuple). -/
def tuple_assign_ok : PyStore → ℕ → Bool
  | PyStore.ndarray (n :: _), i => decide (i < n)
  | PyStore.ndarray [], _ => false
  | PyStore.pylist _, _ => false

/-- Whether a single-indexed element assignment `target[i] = value`
succeeds: within range on either container kind. -/
def index_assign_ok : PyStore → ℕ → Bool
  | PyStore.ndarray (n :: _), i => decide (i < n)
  | PyStore.ndarray [], _ => false
  | PyStore.pylist len, i => decide (i < len)

/-- The per-configuration loop of Ensemble.load (source lines 114-128).
Each iteration writes forces[i, :, :], stresses[i, :, :], then executes
`self.sscha_energies[i], self.sscha_forces[i, :, :] = ...`, whose two
assignments run left to right.  Element writes do not change any shape,
so the state is threaded unchanged; the first failing write aborts the
loop with the state at that point. -/
def load_loop (s : LoadState) : List ℕ → Except LoadState LoadState
  | [] => Except.ok s
  | i :: rest =>
    if tuple_assign_ok s.forces i then
      if tuple_assign_ok s.stresses i then
        if index_assign_ok s.sscha_energies i then
          if tuple_assign_ok s.sscha_forces i then load_loop s rest
          else Except.error s
        else Except.error s
      else Except.error s
    else Except.error s

/-- Ensemble.load at shape level (source lines 106-134): set self.N,
allocate forces (N, N_atoms, 3) and stresses (N, 3, 3), allocate
sscha_energies twice - first np.zeros(N), then immediately
np.zeros((N, N_atoms, 3)) - never allocate sscha_forces, run the loop,
and only afterwards load the energies and set the weights to np.ones(N). -/
def load (nat N : ℕ) (s0 : LoadState) : Except LoadState LoadState :=
  let s1 : LoadState := { s0 with N := N }
  let s2 : LoadState := { s1 with forces := PyStore.ndarray [N, nat, 3] }
  let s3 : LoadState := { s2 with stresses := PyStore.ndarray [N, 3, 3] }
  let s4 : LoadState := { s3 with sscha_energies := PyStore.ndarray [N] }
  let s5 : LoadState :=
    { s4 with sscha_energies := PyStore.ndarray [N, nat, 3] }
  match load_loop s5 (List.range N) with
  | Except.error s' => Except.error s'
  | Except.ok s' =>
    let s6 : LoadState := { s' with energies := PyStore.ndarray [N] }
    Except.ok { s6 with rho := PyStore.ndarray [N] }

/-- Claim C9: for every N ≥ 1 (and any atom count), load on a freshly
constructed Ensemble raises on the first configuration at the
tuple-indexed assignment into the still-empty sscha_forces list; in the
state observable at the failure, sscha_forces is still the empty list
(never allocated with N entries), sscha_energies holds its second
allocation of force shape (N, N_atoms, 3) rather than a length-N array,
and rho was never initialized to ones. -/
theorem load_never_completes (nat N : ℕ) (hN : 1 ≤ N) :
    ∃ s', load nat N initState = Except.error s' ∧
      s'.sscha_forces = PyStore.pylist 0 ∧
      s'.sscha_energies = PyStore.ndarray [N, nat, 3] ∧
      s'.sscha_energies ≠ PyStore.ndarray [N] ∧
      s'.rho = PyStore.pylist 0 ∧ s'.energies = PyStore.pylist 0 := by
  obtain ⟨m, hm⟩ : ∃ m, N = m + 1 := ⟨N - 1, by omega⟩
  have hrange : List.range N = 0 :: List.map Nat.succ (List.range m) := by
    rw [hm, List.range_succ_eq_map]
  have h0 : 0 < N := hN
  have hload : load nat N initState = Except.error
      { initState with
          N := N,
          forces := PyStore.ndarray [N, nat, 3],
          stresses := PyStore.ndarray [N, 3, 3],
          sscha_energies := PyStore.ndarray [N, nat, 3] } := by
    simp only [load, hrange, load_loop, tuple_assign_ok, index_assign_ok,
      initState, decide_eq_true_eq, h0, if_true, Bool.false_eq_true,
      if_false]
  refine ⟨_, hload, rfl, rfl, ?_, rfl, rfl⟩
  intro hcontra
  simp at hcontra

/-- Claim C9 witness: the concrete call load(N_atoms = 1, N = 1) on the
constructed state fails with exactly this shape state. -/
theorem load_never_completes_witness :
    ∃ s', load 1 1 initState = Except.error s' ∧
      s'.sscha_forces = PyStore.pylist 0 ∧
      s'.sscha_energies = PyStore.ndarray [1, 1, 3] ∧
      s'.sscha_energies ≠ PyStore.ndarray [1] ∧
      s'.rho = PyStore.pylist 0 ∧ s'.energies = PyStore.pylist 0 :=
  load_never_completes 1 1 (by decide)

/-- Ensemble.get_average_forces, specialized to the shapes N = 1 and
N_atoms = 1, one of the few shape pairs where the operation is even
defined.  The source computes `new_rho = np.tile(self.rho, (N_atoms, 3,
1))`, of shape (N_atoms, 3, N) = (1, 3, 1), and multiplies it by
(self.forces - self.sscha_forces), of shape (N, N_atoms, 3) = (1, 1, 3);
numpy broadcasts the pair to shape (1, 3, 3) with product entry
[0, c, d] = rho[0] * (forces - sscha_forces)[0, 0, d], and the outer
np.sum (no axis argument) then reduces over all axes, so the method
returns a single scalar, `np.sum(new_rho * (forces - sscha_forces)) /
self.N` with N = 1.  (For general shapes, e.g. N_atoms = 2 and N = 10,
the two operand shapes are not broadcast-compatible at all and numpy
raises a ValueError.) -/
def get_average_forces_N1_nat1 (rho : ℕ → ℚ)
    (forces sscha_forces : ℕ → ℕ → ℕ → ℚ) : ℚ :=
  (∑ c ∈ range 3, ∑ d ∈ range 3,
      rho 0 * (forces 0 0 d - sscha_forces 0 0 d)) / 1

/-- The per-atom, per-component weighted average that the specification
describes.  Modelled from the spec: entry (a, c) =
(Σ_nu rho_nu * (forces[nu, a, c] - sscha_forces[nu, a, c])) / N,
stated for comparison with the scalar the code returns. -/
def average_forces_spec (N : ℕ) (rho : ℕ → ℚ)
    (forces sscha_forces : ℕ → ℕ → ℕ → ℚ) (a c : ℕ) : ℚ :=
  (∑ nu ∈ range N, rho nu * (forces nu a c - sscha_forces nu a c)) / N

/-- Claim C8 failing-input theorem: on the one-atom, one-configuration
ensemble with unit weight and force residual (1, 2, 3), the code returns
the single scalar 18 = 3 * (1 + 2 + 3) (the residual triple-counted by the
mis-oriented tile and summed over every axis), whereas the elementwise
average of the specification has entries 1, 2, 3; the returned value is
not the per-atom, per-component array the claim describes. -/
theorem get_average_forces_scalar_vs_spec :
    get_average_forces_N1_nat1 (fun _ => 1) (fun _ _ d => (d : ℚ) + 1)
        (fun _ _ _ => 0) = 18 ∧
      average_forces_spec 1 (fun _ => 1) (fun _ _ d => (d : ℚ) + 1)
        (fun _ _ _ => 0) 0 0 = 1 ∧
      average_forces_spec 1 (fun _ => 1) (fun _ _ d => (d : ℚ) + 1)
        (fun _ _ _ => 0) 0 2 = 3 ∧
      (18 : ℚ) ≠ 1 := by
  refine ⟨?_, ?_, ?_, by norm_num⟩
  · unfold get_average_forces_N1_nat1
    rw [Finset.sum_range_succ, Finset.sum_range_succ, Finset.sum_range_succ]
    norm_num [Finset.sum_range_succ]
  · unfold average_forces_spec
    norm_num
  · unfold average_forces_spec
    norm_num
